import Mathlib

set_option autoImplicit false
set_option maxRecDepth 4000

/-! Verification development for the WhatsApp webhook relay.

The repository contains four variants of the same Express webhook server.
Each variant is embedded in its own namespace:

* `WT`  — `src/webhook.ts`
* `R1`  — first variant in `src/unnamed/part_000` (the router with the
  object-marker check, tenant gating, URL denylist and auto-response fallback)
* `A1`  — first variant in `src/unnamed/part_001` (the "autonomous" forwarder)
* `A2`  — second variant in `src/unnamed/part_001` (the forwarder that relays
  the Edge Function response and sends a fallback message on failure)

Side effects are modelled as explicit effect traces (outbound HTTP posts,
`console.error` and `console.warn` entries; `console.log` lines are not
tracked).  Whether an outbound HTTP call succeeds is an oracle carried in the
per-variant configuration (`net : String → Bool` keyed by URL, etc.),
mirroring the fact that every axios call in the source sits inside a
`try`/`catch` whose handler only logs.  Environment variables are modelled as
`Option String` fields of an immutable configuration value. -/

/-- JavaScript string truthiness: a string is truthy iff it is nonempty. -/
def truthyStr (s : String) : Bool := !s.data.isEmpty

/-- Truthiness of a possibly-undefined string (env vars, optional fields):
`undefined` and `""` are falsy. -/
def truthyOptStr : Option String → Bool
  | none => false
  | some s => truthyStr s

/-- JS `x || d` on an env string: the default is used when unset or empty. -/
def jsOrD : Option String → String → String
  | none, d => d
  | some s, d => if truthyStr s then s else d

/-- Template-literal interpolation of a possibly-undefined value:
`` `${undefined}` `` is the string `"undefined"`. -/
def tmplStr : Option String → String
  | none => "undefined"
  | some s => s

/-- `String.toLowerCase()`, character by character (ASCII case folding). -/
def strToLower (s : String) : String := String.mk (s.data.map Char.toLower)

/-- Bool test for "pattern is a prefix of text" on character lists. -/
def listStarts : List Char → List Char → Bool
  | [], _ => true
  | _ :: _, [] => false
  | p :: ps, c :: cs => (p == c) && listStarts ps cs

/-- Bool test for "pattern occurs contiguously in text" on character lists. -/
def listOccurs (pat : List Char) : List Char → Bool
  | [] => listStarts pat []
  | c :: t => listStarts pat (c :: t) || listOccurs pat t

/-- JS `s.includes(sub)`: substring containment. -/
def jsIncludes (s sub : String) : Bool := listOccurs sub.data s.data

/-- Whitespace recognized by our model of `String.trim()`. -/
def wsChar (c : Char) : Bool := c == ' ' || c == '\t' || c == '\n' || c == '\r'

/-- JS `s.trim()`: drop whitespace from both ends. -/
def jsTrim (s : String) : String :=
  String.mk (((s.data.dropWhile wsChar).reverse.dropWhile wsChar).reverse)

theorem strLen_mk (l : List Char) : (String.mk l).length = l.length := rfl

theorem strEqEmpty (s : String) : s = "" ↔ s.data = [] := by
  cases s with
  | mk l => exact ⟨fun h => congrArg String.data h, fun h => by rw [show l = [] from h]⟩

/-! ## `WT`: model of `src/webhook.ts` -/

namespace WT

/-- Environment and network oracle for `webhook.ts`.  `net url = true` means
an axios call to `url` resolves with a 2xx response. -/
structure Config where
  verifyTokenEnv : Option String
  boltEnv : Option String
  net : String → Bool

/-- `const VERIFY_TOKEN = process.env.VERIFY_TOKEN || 'your_verification_token_here'` -/
def VERIFY_TOKEN (cfg : Config) : String :=
  jsOrD cfg.verifyTokenEnv "your_verification_token_here"

/-- `const BOLT_WEBHOOK_ENDPOINT = process.env.BOLT_WEBHOOK_ENDPOINT || 'https://your-bolt-app.com'` -/
def BOLT_WEBHOOK_ENDPOINT (cfg : Config) : String :=
  jsOrD cfg.boltEnv "https://your-bolt-app.com"

/-- Observable effects of `webhook.ts` processing.  `post url pid` is an
attempted axios POST (the forwarded payload's `phoneNumberId` field is
recorded because it may be `undefined`); `err` is a `console.error`. -/
inductive Eff where
  | post (url : String) (phoneNumberId : Option String)
  | err (msg : String)
deriving DecidableEq

/-- An inbound WhatsApp message as read by `webhook.ts`
(`message.text?.body`, `message.image?.caption`, ...). -/
structure Message where
  id : String
  sender : String      -- `message.from` (`from` is reserved in Lean)
  timestamp : String
  type : String
  textBody : Option String
  imageCaption : Option String
  videoCaption : Option String
  documentCaption : Option String
deriving DecidableEq

/-- `extractMessageContent` (webhook.ts lines 259-274).  `x?.y || d` yields
the default when the field is absent or empty. -/
def extractMessageContent (m : Message) : String :=
  match m.type with
  | "text" => jsOrD m.textBody ""
  | "image" => jsOrD m.imageCaption "[Image]"
  | "video" => jsOrD m.videoCaption "[Video]"
  | "document" => jsOrD m.documentCaption "[Document]"
  | "audio" => "[Audio]"
  | _ => "[Unknown message type]"

def quizKeywords : List String :=
  ["quiz", "game", "test", "play", "challenge", "jeu", "défi"]

def educationKeywords : List String :=
  ["learn", "study", "homework", "apprendre", "étudier", "devoirs"]

/-- `determineChatbotType` (webhook.ts lines 238-256): quiz keywords first,
then education keywords, else customer-service. -/
def determineChatbotType (m : Message) : String :=
  if quizKeywords.any (fun k => jsIncludes (strToLower (extractMessageContent m)) k) then
    "quiz"
  else if educationKeywords.any (fun k => jsIncludes (strToLower (extractMessageContent m)) k) then
    "education"
  else
    "customer-service"

/-- `processFallbackMessage` (webhook.ts lines 277-311) only writes
`console.log` lines (the canned reply is logged, not sent), so it
contributes no tracked effects. -/
def processFallbackMessage (_m : Message) (_chatbotType : String) : List Eff := []

/-- `processMessage` (webhook.ts lines 163-235): classify, POST to
`BOLT_WEBHOOK_ENDPOINT + '/api/webhook/' + chatbotType`; on failure log an
error and run the (log-only) fallback.  Note there is no gating on
`phoneNumberId`: it is forwarded as-is, possibly `undefined`. -/
def processMessage (cfg : Config) (m : Message) (phoneNumberId : Option String) : List Eff :=
  let chatbotType := determineChatbotType m
  let endpoint := BOLT_WEBHOOK_ENDPOINT cfg ++ "/api/webhook/" ++ chatbotType
  if cfg.net endpoint then
    [.post endpoint phoneNumberId]
  else
    [.post endpoint phoneNumberId, .err "Failed to forward message to Bolt app"]
      ++ processFallbackMessage m chatbotType

/-- The `value` of a Change as read by `webhook.ts`. -/
structure Metadata where
  phone_number_id : Option String
deriving DecidableEq

structure StatusUpdate where
  id : String
  status : String
  timestamp : String
  recipient_id : String
deriving DecidableEq

structure ChangeValue where
  metadata : Option Metadata
  messages : Option (List Message)
  statuses : Option (List StatusUpdate)

/-- `processMessages` (webhook.ts lines 91-108): if `messages` is not an
array, return; otherwise process each message with
`messageData.metadata?.phone_number_id`. -/
def processMessages (cfg : Config) (v : ChangeValue) : List Eff :=
  match v.messages with
  | none => []
  | some msgs =>
    msgs.flatMap fun m => processMessage cfg m (v.metadata.bind Metadata.phone_number_id)

/-- `processStatusUpdates` (webhook.ts lines 111-160): POST each status to
`BOLT_WEBHOOK_ENDPOINT + '/api/webhook/status'`; each failure is caught and
logged inside the loop. -/
def processStatusUpdates (cfg : Config) (v : ChangeValue) : List Eff :=
  match v.statuses with
  | none => []
  | some sts =>
    sts.flatMap fun _s =>
      let url := BOLT_WEBHOOK_ENDPOINT cfg ++ "/api/webhook/status"
      if cfg.net url then [.post url none]
      else [.post url none, .err "Failed to forward status update"]

structure Change where
  field : String
  value : ChangeValue

structure Entry where
  changes : Option (List Change)

/-- Inbound body.  `webhook.ts` never reads `object`; the field is carried
so that envelopes lacking the business-account marker can be expressed. -/
structure Envelope where
  object : String
  entry : Option (List Entry)

/-- Dispatch on `change.field` (webhook.ts lines 67-71). -/
def processChange (cfg : Config) (c : Change) : List Eff :=
  if c.field = "messages" then processMessages cfg c.value
  else if c.field = "message_status_updates" then processStatusUpdates cfg c.value
  else []

/-- `app.post('/webhook')` (webhook.ts lines 52-88): 400 when `entry` is
missing/not an array, otherwise every entry and change is processed and the
response is 200.  The 500 branch corresponds to an exception escaping the
handler body, which cannot happen in this exception-free model because every
per-event failure is caught and logged by the inner handlers. -/
def handleWebhookPost (cfg : Config) (body : Envelope) : Nat × List Eff :=
  match body.entry with
  | none => (400, [.err "Invalid webhook payload - missing entry array"])
  | some entries =>
    (200, entries.flatMap fun e =>
      (match e.changes with
       | none => []
       | some cs => cs.flatMap (processChange cfg)))

/-- Query parameters of `GET /webhook`. -/
structure Query where
  mode : Option String
  token : Option String
  challenge : Option String

/-- Response body of the verification endpoint. -/
inductive RespBody where
  | empty
  | text (s : String)
  | health
deriving DecidableEq

/-- `app.get('/webhook')` (webhook.ts lines 30-49): on `mode && token`,
compare against `VERIFY_TOKEN`; otherwise respond 400. -/
def handleWebhookGet (cfg : Config) (q : Query) : Nat × RespBody :=
  if truthyOptStr q.mode && truthyOptStr q.token then
    if q.mode.getD "" = "subscribe" ∧ q.token.getD "" = VERIFY_TOKEN cfg then
      (200, match q.challenge with
            | some c => .text c
            | none => .empty)
    else (403, .empty)
  else (400, .empty)

end WT

/-! ## `R1`: model of the first variant in `src/unnamed/part_000` -/

namespace R1

/-- Environment and network oracle for the part_000 router. -/
structure Config where
  verifyToken : Option String   -- process.env.VERIFY_TOKEN
  bolt : Option String          -- process.env.BOLT_WEBHOOK_ENDPOINT
  metaToken : Option String     -- process.env.META_ACCESS_TOKEN
  net : String → Bool

def TRIGGER_KEYWORDS_CLIENT : List String :=
  ["support", "help", "customer service", "assistance", "problem",
   "issue", "complaint", "service client", "aide", "problème"]

def TRIGGER_KEYWORDS_EDUCATION : List String :=
  ["learn", "study", "course", "education", "school", "homework",
   "assignment", "question", "apprendre", "étudier", "cours", "éducation",
   "école", "devoir", "exercice"]

def TRIGGER_KEYWORDS_QUIZ : List String :=
  ["quiz", "game", "test", "play", "challenge", "question", "answer",
   "jeu", "défi", "réponse", "questionnaire"]

/-- `determineChatbotType` (part_000 lines 61-76): education keywords first,
then quiz keywords, else client. -/
def determineChatbotType (message : String) : String :=
  if TRIGGER_KEYWORDS_EDUCATION.any (fun k => jsIncludes (strToLower message) k) then
    "education"
  else if TRIGGER_KEYWORDS_QUIZ.any (fun k => jsIncludes (strToLower message) k) then
    "quiz"
  else
    "client"

/-- The JSON object POSTed by `forwardMessage` (either the text shape or the
media shape) and by `handleStatusUpdate`. -/
structure MessageData where
  phoneNumberId : String
  sender : String              -- `from` (reserved in Lean)
  text : Option String
  mediaType : Option String
  mediaId : Option String
  mimeType : Option String
  messageId : String
  timestamp : String
deriving DecidableEq

inductive Payload where
  | pm (md : MessageData)
  | ps (phoneNumberId messageId recipientId status timestamp : String)
deriving DecidableEq

/-- Effects of the part_000 router: downstream POSTs (to the Bolt endpoint),
provider POSTs (WhatsApp send-message API), errors and warnings. -/
inductive Eff where
  | postDown (url : String) (p : Payload)
  | postProvider (url toNum body : String)
  | err (msg : String)
  | warn (msg : String)
deriving DecidableEq

/-- Outbound HTTP calls only (log entries dropped). -/
inductive Call where
  | down (url : String) (p : Payload)
  | provider (url toNum body : String)
deriving DecidableEq

def callOf : Eff → Option Call
  | .postDown u p => some (.down u p)
  | .postProvider u t b => some (.provider u t b)
  | _ => none

def callsOf (trace : List Eff) : List Call := trace.filterMap callOf

/-- The local/loopback denylist check in `forwardMessage` and
`handleStatusUpdate` (part_000 lines 220-222 and 276-278). -/
def denylisted (baseUrl : String) : Bool :=
  jsIncludes baseUrl "local-credentialless.webcontainer-api.io"
    || jsIncludes baseUrl "localhost"
    || jsIncludes baseUrl "127.0.0.1"

/-- The canned auto-response text per chatbot type (part_000 lines 336-345). -/
def autoMessage (chatbotType : String) : String :=
  match chatbotType with
  | "education" => "Merci pour votre message concernant l\x27éducation. Votre question a été reçue et sera traitée par notre équipe. Nous vous répondrons dès que possible."
  | "quiz" => "Merci pour votre intérêt pour nos quiz. Votre demande a été enregistrée et sera traitée par notre équipe. Nous vous répondrons dès que possible."
  | _ => "Merci pour votre message au service client. Votre demande a été enregistrée et sera traitée par notre équipe. Nous vous répondrons dès que possible."

/-- `sendAutoResponse` (part_000 lines 318-369): requires META_ACCESS_TOKEN,
POSTs a canned reply to the provider send-message API; its own failure is
caught and logged.  `originalMessage` is accepted but unused, as in the
source. -/
def sendAutoResponse (cfg : Config) (phoneNumberId toNum : String)
    (_originalMessage : Option String) (chatbotType : String) : List Eff :=
  if !truthyOptStr cfg.metaToken then
    [.err "META_ACCESS_TOKEN environment variable is not set"]
  else
    let url := "https://graph.facebook.com/v19.0/" ++ phoneNumberId ++ "/messages"
    if cfg.net url then
      [.postProvider url toNum (autoMessage chatbotType)]
    else
      [.postProvider url toNum (autoMessage chatbotType), .err "Error sending auto-response"]

/-- Model of `new URL(path, base).toString()`.  The exact URL-resolution
algorithm is irrelevant to the verified properties (only whether a downstream
call happens at all matters), so the model just joins base and path. -/
def newURL (path base : String) : String := base ++ path

/-- `forwardMessage` (part_000 lines 261-309): unset/empty endpoint or a
denylisted host skips the network call and sends the auto-response; otherwise
POST to `<base>/api/chatbot/<type>`, falling back to the auto-response when
the call fails. -/
def forwardMessage (cfg : Config) (chatbotType : String) (md : MessageData) : List Eff :=
  if !truthyOptStr cfg.bolt then
    .warn "BOLT_WEBHOOK_ENDPOINT not set or empty, sending auto-response instead"
      :: sendAutoResponse cfg md.phoneNumberId md.sender md.text chatbotType
  else
    let baseUrl := cfg.bolt.getD ""
    if denylisted baseUrl then
      .warn "Local development URL detected in production environment, sending auto-response instead"
        :: sendAutoResponse cfg md.phoneNumberId md.sender md.text chatbotType
    else
      let endpoint := newURL ("/api/chatbot/" ++ chatbotType) baseUrl
      if !truthyStr endpoint then
        .warn "No endpoint available, sending auto-response instead"
          :: sendAutoResponse cfg md.phoneNumberId md.sender md.text chatbotType
      else if cfg.net endpoint then
        [.postDown endpoint (.pm md)]
      else
        [.postDown endpoint (.pm md), .err "Error forwarding message"]
          ++ sendAutoResponse cfg md.phoneNumberId md.sender md.text chatbotType

structure StatusUpdate where
  id : String
  status : String
  timestamp : String
  recipient_id : String
deriving DecidableEq

/-- `handleStatusUpdate` (part_000 lines 202-254): unset endpoint or
denylisted host skips forwarding (warn only, no fallback); otherwise POST the
status payload to the base endpoint itself, logging on failure. -/
def handleStatusUpdate (cfg : Config) (phoneNumberId : String) (s : StatusUpdate) : List Eff :=
  if !truthyOptStr cfg.bolt then
    [.warn "BOLT_WEBHOOK_ENDPOINT not set or empty, skipping status update forwarding"]
  else
    let baseUrl := cfg.bolt.getD ""
    if denylisted baseUrl then
      [.warn "Local development URL detected in production environment, skipping status update forwarding"]
    else
      let endpoint := baseUrl
      if !truthyStr endpoint then
        [.warn "No endpoint available for status updates, skipping"]
      else if cfg.net endpoint then
        [.postDown endpoint (.ps phoneNumberId s.id s.recipient_id s.status s.timestamp)]
      else
        [.postDown endpoint (.ps phoneNumberId s.id s.recipient_id s.status s.timestamp),
         .err "Error handling status update"]

/-- An inbound message as read by the part_000 POST handler.  `text` is
`message.text.body` when the `text` object is present; `mediaId`/`mimeType`
stand for `message[<type>].id` / `.mime_type`. -/
structure Message where
  id : String
  sender : String
  timestamp : String
  type : String
  text : Option String
  mediaId : Option String
  mimeType : Option String
deriving DecidableEq

/-- Per-message body of the part_000 message loop (lines 137-179): text
messages are classified and forwarded; image/video/document messages are
forwarded to the education chatbot; all other types are dropped. -/
def processMessage (cfg : Config) (phoneNumberId : String) (m : Message) : List Eff :=
  if m.type = "text" ∧ m.text.isSome then
    forwardMessage cfg (determineChatbotType (m.text.getD ""))
      { phoneNumberId := phoneNumberId, sender := m.sender, text := some (m.text.getD "")
        mediaType := none, mediaId := none, mimeType := none
        messageId := m.id, timestamp := m.timestamp }
  else if m.type = "image" ∨ m.type = "video" ∨ m.type = "document" then
    forwardMessage cfg "education"
      { phoneNumberId := phoneNumberId, sender := m.sender, text := none
        mediaType := some m.type, mediaId := m.mediaId, mimeType := m.mimeType
        messageId := m.id, timestamp := m.timestamp }
  else []

structure Metadata where
  phone_number_id : Option String

structure ChangeValue where
  metadata : Option Metadata
  statuses : Option (List StatusUpdate)
  messages : Option (List Message)

structure Change where
  field : String
  value : ChangeValue

structure Entry where
  changes : Option (List Change)

structure Envelope where
  object : String
  entry : Option (List Entry)

def pidOf (v : ChangeValue) : Option String := v.metadata.bind Metadata.phone_number_id

/-- Body of the per-Change loop (part_000 lines 120-180): only
`field === 'messages'` is handled; a falsy `metadata?.phone_number_id` logs
one error and skips the Change (`continue`); otherwise all statuses then all
messages of the Change are processed in array order. -/
def processChange (cfg : Config) (c : Change) : List Eff :=
  if c.field = "messages" then
    if !truthyOptStr (pidOf c.value) then
      [.err "Missing phone_number_id in webhook payload"]
    else
      let pid := (pidOf c.value).getD ""
      (match c.value.statuses with
       | some sts => sts.flatMap (handleStatusUpdate cfg pid)
       | none => []) ++
      (match c.value.messages with
       | some msgs => msgs.flatMap (processMessage cfg pid)
       | none => [])
  else []

/-- `app.post('/webhook')` (part_000 lines 111-195): envelopes whose
`object` is not `whatsapp_business_account` get a 404 and are not processed;
otherwise every entry and change is processed and the response is
`200 EVENT_RECEIVED`. -/
def handleWebhookPost (cfg : Config) (body : Envelope) : Nat × List Eff :=
  if body.object = "whatsapp_business_account" then
    (200, (body.entry.getD []).flatMap fun e =>
      (e.changes.getD []).flatMap (processChange cfg))
  else
    (404, [.warn ("Received webhook event for " ++ body.object)])

structure Query where
  mode : Option String
  token : Option String
  challenge : Option String

inductive RespBody where
  | empty
  | text (s : String)
  | health
deriving DecidableEq

/-- `token === process.env.VERIFY_TOKEN`: strict equality against a possibly
undefined env var (false when the env var is unset). -/
def tokenMatches (cfg : Config) (token : String) : Prop := cfg.verifyToken = some token

instance (cfg : Config) (token : String) : Decidable (tokenMatches cfg token) := by
  unfold tokenMatches; infer_instance

/-- `app.get('/webhook')` (part_000 lines 82-105): subscribe + matching token
echoes the challenge with 200; a mismatch gives 403; missing parameters give
a 200 JSON health body. -/
def handleWebhookGet (cfg : Config) (q : Query) : Nat × RespBody :=
  if truthyOptStr q.mode && truthyOptStr q.token then
    if q.mode.getD "" = "subscribe" ∧ tokenMatches cfg (q.token.getD "") then
      (200, match q.challenge with
            | some c => .text c
            | none => .empty)
    else (403, .empty)
  else (200, .health)

end R1

/-! ## `A1`: model of the first variant in `src/unnamed/part_001` -/

namespace A1

structure Config where
  verifyToken : Option String    -- process.env.VERIFY_TOKEN
  bolt : Option String           -- process.env.BOLT_WEBHOOK_ENDPOINT
  supabaseKey : Option String    -- process.env.SUPABASE_ANON_KEY
  net : String → Bool

/-- Effects: `post url pid text` is an attempted POST of the Edge Function
payload, `postStatus url mid` an attempted POST of a status payload. -/
inductive Eff where
  | post (url phoneNumberId text : String)
  | postStatus (url messageId : String)
  | err (msg : String)
deriving DecidableEq

structure Message where
  id : String
  sender : String
  timestamp : String
  type : String
  text : Option String       -- message.text?.body
deriving DecidableEq

structure StatusUpdate where
  id : String
  status : String
  timestamp : String
  recipient_id : String
deriving DecidableEq

structure Metadata where
  phone_number_id : Option String

structure ChangeValue where
  metadata : Option Metadata
  statuses : Option (List StatusUpdate)
  messages : Option (List Message)

structure Change where
  value : ChangeValue

structure Entry where
  changes : Option (List Change)

structure Envelope where
  object : String
  entry : Option (List Entry)

/-- `body.entry?.[0]?.changes?.[0]?.value`: only the first Change of the
first Entry is ever examined. -/
def firstValue (body : Envelope) : Option ChangeValue :=
  (body.entry.getD []).head?.bind fun e =>
    ((e.changes.getD []).head?.map Change.value)

/-- `processIncomingMessage` (part_001 lines 157-264): skip non-text
messages; POST the payload to `${BOLT_WEBHOOK_ENDPOINT}/functions/v1/api-chatbot`
(template-literal interpolation of a possibly-undefined env var); failures
are logged only — this variant sends no fallback. -/
def processIncomingMessage (cfg : Config) (m : Message) (phoneNumberId : String) : List Eff :=
  if !truthyOptStr m.text then []
  else
    let url := tmplStr cfg.bolt ++ "/functions/v1/api-chatbot"
    if cfg.net url then [.post url phoneNumberId (m.text.getD "")]
    else [.post url phoneNumberId (m.text.getD ""), .err "Failed to forward to Edge Function"]

/-- The status loop (part_001 lines 89-105): the `try` wraps the whole loop,
so the first failing POST logs one error and aborts the remaining statuses. -/
def statusLoop (cfg : Config) : List StatusUpdate → List Eff
  | [] => []
  | s :: rest =>
    let url := tmplStr cfg.bolt ++ "/functions/v1/status-handler"
    if cfg.net url then .postStatus url s.id :: statusLoop cfg rest
    else [.postStatus url s.id, .err "Error forwarding status updates"]

/-- `app.post('/webhook')` (part_001 lines 79-154): if the first Change
carries `statuses`, forward them and acknowledge; else if it carries
`messages`, require `metadata.phone_number_id` (absence logs one error and
acknowledges), then process each message; else acknowledge.  The `object`
marker is never inspected. -/
def handleWebhookPost (cfg : Config) (body : Envelope) : Nat × List Eff :=
  match firstValue body with
  | none => (200, [])
  | some v =>
    match v.statuses with
    | some sts => (200, statusLoop cfg sts)
    | none =>
      match v.messages with
      | some msgs =>
        if !truthyOptStr (v.metadata.bind Metadata.phone_number_id) then
          (200, [.err "CRITICAL: phone_number_id not found in webhook metadata"])
        else
          (200, msgs.flatMap fun m =>
            processIncomingMessage cfg m ((v.metadata.bind Metadata.phone_number_id).getD ""))
      | none => (200, [])

structure Query where
  mode : Option String
  token : Option String
  challenge : Option String

inductive RespBody where
  | empty
  | text (s : String)
deriving DecidableEq

def tokenMatches (cfg : Config) (token : String) : Prop := cfg.verifyToken = some token

instance (cfg : Config) (token : String) : Decidable (tokenMatches cfg token) := by
  unfold tokenMatches; infer_instance

/-- `app.get('/webhook')` (part_001 lines 59-76): like webhook.ts but the
verify token is the raw env var; missing parameters give 400. -/
def handleWebhookGet (cfg : Config) (q : Query) : Nat × RespBody :=
  if truthyOptStr q.mode && truthyOptStr q.token then
    if q.mode.getD "" = "subscribe" ∧ tokenMatches cfg (q.token.getD "") then
      (200, match q.challenge with
            | some c => .text c
            | none => .empty)
    else (403, .empty)
  else (400, .empty)

end A1

/-! ## `A2`: model of the second variant in `src/unnamed/part_001` -/

namespace A2

/-- Outcome of the axios POST to the Edge Function: a network-level failure
(axios rejects), or a resolved response with status, `success` flag and
`response` text. -/
inductive EdgeOut where
  | netFail
  | reply (status : Nat) (success : Bool) (response : String)
deriving DecidableEq

structure Config where
  verifyToken : Option String
  bolt : Option String
  metaToken : Option String       -- process.env.META_ACCESS_TOKEN
  metaPhoneId : Option String     -- process.env.META_PHONE_NUMBER_ID
  supabaseKey : Option String
  edge : EdgeOut                  -- outcome of the Edge Function call
  net : String → Bool             -- outcome of status-handler POSTs
  waOk : String → Bool            -- outcome of WhatsApp sends, keyed by body

/-- `const FALLBACK_MESSAGE = " Merci pour votre message concernant le service client. ..."` -/
def FALLBACK_MESSAGE : String :=
  " Merci pour votre message concernant le service client. Votre demande a été reçue et sera traitée par notre équipe. Nous reviendrons vers vous sous peu."

/-- Effects: `postEdge` is the Edge Function call, `postWA url toNum body`
an attempted WhatsApp send-message call, `postStatus` a status relay. -/
inductive Eff where
  | postEdge (url text : String)
  | postWA (url toNum body : String)
  | postStatus (url messageId : String)
  | err (msg : String)
  | warn (msg : String)
deriving DecidableEq

structure Message where
  id : String
  sender : String
  timestamp : String
  type : String
  text : Option String
deriving DecidableEq

structure StatusUpdate where
  id : String
  status : String
  timestamp : String
  recipient_id : String
deriving DecidableEq

/-- `sendBotResponseToWhatsApp` (part_001 lines 625-701): requires both
send credentials; trims the bot message, refuses to send an empty body,
truncates anything over 4096 characters to 4093 plus `"..."`; a failed send
is logged and deliberately swallowed (no fallback is triggered). -/
def sendBotResponseToWhatsApp (cfg : Config) (phoneNumber botMessage : String) : List Eff :=
  if !truthyOptStr cfg.metaToken || !truthyOptStr cfg.metaPhoneId then
    [.err "WhatsApp API credentials not configured for bot response"]
  else
    let sanitized := jsTrim botMessage
    if sanitized.length = 0 then
      [.err "Bot message is empty after sanitization"]
    else
      let tooLong := decide (sanitized.length > 4096)
      let sanitized2 := if sanitized.length > 4096
        then String.mk (sanitized.data.take 4093) ++ "..." else sanitized
      let url := "https://graph.facebook.com/v18.0/" ++ cfg.metaPhoneId.getD "" ++ "/messages"
      (if tooLong then [.warn "Bot message too long, truncating"] else []) ++
      (if cfg.waOk sanitized2 then [.postWA url phoneNumber sanitized2]
       else [.postWA url phoneNumber sanitized2, .err "Error sending bot response to WhatsApp"])

/-- `sendFallbackMessage` (part_001 lines 704-750): requires both send
credentials; sends the constant `FALLBACK_MESSAGE`; its own failure is
logged and terminal. -/
def sendFallbackMessage (cfg : Config) (phoneNumber _originalMessageId : String) : List Eff :=
  if !truthyOptStr cfg.metaToken || !truthyOptStr cfg.metaPhoneId then
    [.err "WhatsApp API credentials not configured for fallback"]
  else
    let url := "https://graph.facebook.com/v18.0/" ++ cfg.metaPhoneId.getD "" ++ "/messages"
    if cfg.waOk FALLBACK_MESSAGE then [.postWA url phoneNumber FALLBACK_MESSAGE]
    else [.postWA url phoneNumber FALLBACK_MESSAGE, .err "Error sending fallback message"]

/-- `processIncomingMessage` (part_001 lines 485-622): forward to the Edge
Function; on a 200-with-success response relay the bot's `response` text via
`sendBotResponseToWhatsApp` (whose failure is swallowed); any Edge Function
failure (network error, non-200, missing success flag) leads to
`sendFallbackMessage`.  The enclosing catch-all (lines 607-621) is
unreachable in this exception-free model. -/
def processIncomingMessage (cfg : Config) (m : Message) : List Eff :=
  if !truthyOptStr m.text then []
  else
    let url := tmplStr cfg.bolt ++ "/functions/v1/api-chatbot"
    let msgText := m.text.getD ""
    match cfg.edge with
    | .netFail =>
      [.postEdge url msgText, .err "Failed to forward to Edge Function"]
        ++ sendFallbackMessage cfg m.sender m.id
    | .reply status success response =>
      if status = 200 ∧ success = true then
        .postEdge url msgText ::
          (if truthyStr response && truthyStr (jsTrim response) then
            sendBotResponseToWhatsApp cfg m.sender response
          else
            [.warn "Edge Function succeeded but returned no response content"])
      else
        [.postEdge url msgText, .err "Edge Function returned error",
         .err "Failed to forward to Edge Function"]
          ++ sendFallbackMessage cfg m.sender m.id

structure Metadata where
  phone_number_id : Option String

structure ChangeValue where
  metadata : Option Metadata
  statuses : Option (List StatusUpdate)
  messages : Option (List Message)

structure Change where
  value : ChangeValue

structure Entry where
  changes : Option (List Change)

structure Envelope where
  object : String
  entry : Option (List Entry)

def firstValue (body : Envelope) : Option ChangeValue :=
  (body.entry.getD []).head?.bind fun e =>
    ((e.changes.getD []).head?.map Change.value)

/-- The status loop (part_001 lines 426-453): `try` wraps the loop, so the
first failing POST logs one error and aborts the rest. -/
def statusLoop (cfg : Config) : List StatusUpdate → List Eff
  | [] => []
  | s :: rest =>
    let url := tmplStr cfg.bolt ++ "/functions/v1/status-handler"
    if cfg.net url then .postStatus url s.id :: statusLoop cfg rest
    else [.postStatus url s.id, .err "Error forwarding status updates"]

/-- `app.post('/webhook')` (part_001 lines 416-482): statuses of the first
Change, else messages of the first Change (no tenant gating in this
variant), else plain acknowledgement; every path responds 200, and the 500
branch corresponds only to an exception escaping the handler body, which the
per-event catches make unreachable. -/
def handleWebhookPost (cfg : Config) (body : Envelope) : Nat × List Eff :=
  match firstValue body with
  | none => (200, [])
  | some v =>
    match v.statuses with
    | some sts => (200, statusLoop cfg sts)
    | none =>
      match v.messages with
      | some msgs => (200, msgs.flatMap (processIncomingMessage cfg))
      | none => (200, [])

/-- Bodies of the WhatsApp send-message calls occurring in a trace. -/
def postedBodies (trace : List Eff) : List String :=
  trace.filterMap fun e =>
    match e with
    | .postWA _ _ b => some b
    | _ => none

end A2

/-! ## Shared helper lemmas and concrete fixtures -/

theorem truthyStr_of_ne (t : String) (h : t ≠ "") : truthyStr t = true := by
  cases hd : t.data with
  | nil => exact absurd ((strEqEmpty t).2 hd) h
  | cons a l => simp [truthyStr, hd]

/-- A webhook.ts config with every env var unset and every call succeeding. -/
def wtCfg : WT.Config := ⟨none, none, fun _ => true⟩

/-- A plain text message ("hello") for webhook.ts. -/
def wtHello : WT.Message := ⟨"m1", "221111", "100", "text", some "hello", none, none, none⟩

/-! ## C1 — classifier purity, determinism and keyword priorities -/

/-- C1: the classifier is a pure, deterministic function of the message
content.  In webhook.ts quiz keywords have top priority, education keywords
come second, and text matching neither set (including the empty string)
yields `customer-service`.  In the part_000 router education keywords have
top priority, quiz keywords come second, and text matching no configured
keyword set (including the empty string) yields `client`.  In both variants
a text containing a quiz keyword and no higher-priority keyword classifies
as quiz, a text containing an education keyword and no quiz keyword
classifies as education, and keyword-free text goes to the default
customer-service/client category. -/
theorem c1_classifier_deterministic_and_prioritized :
    (∀ m : WT.Message, WT.determineChatbotType m = WT.determineChatbotType m)
    ∧ (∀ m : WT.Message,
        (WT.quizKeywords.any fun k =>
          jsIncludes (strToLower (WT.extractMessageContent m)) k) = true →
        WT.determineChatbotType m = "quiz")
    ∧ (∀ m : WT.Message,
        (WT.quizKeywords.any fun k =>
          jsIncludes (strToLower (WT.extractMessageContent m)) k) = false →
        (WT.educationKeywords.any fun k =>
          jsIncludes (strToLower (WT.extractMessageContent m)) k) = true →
        WT.determineChatbotType m = "education")
    ∧ (∀ m : WT.Message,
        (WT.quizKeywords.any fun k =>
          jsIncludes (strToLower (WT.extractMessageContent m)) k) = false →
        (WT.educationKeywords.any fun k =>
          jsIncludes (strToLower (WT.extractMessageContent m)) k) = false →
        WT.determineChatbotType m = "customer-service")
    ∧ WT.determineChatbotType ⟨"m0", "u0", "0", "text", some "", none, none, none⟩
        = "customer-service"
    ∧ (∀ t : String,
        (R1.TRIGGER_KEYWORDS_EDUCATION.any fun k => jsIncludes (strToLower t) k) = false →
        (R1.TRIGGER_KEYWORDS_QUIZ.any fun k => jsIncludes (strToLower t) k) = true →
        R1.determineChatbotType t = "quiz")
    ∧ (∀ t : String,
        (R1.TRIGGER_KEYWORDS_EDUCATION.any fun k => jsIncludes (strToLower t) k) = true →
        (R1.TRIGGER_KEYWORDS_QUIZ.any fun k => jsIncludes (strToLower t) k) = false →
        R1.determineChatbotType t = "education")
    ∧ (∀ t : String,
        (R1.TRIGGER_KEYWORDS_CLIENT.any fun k => jsIncludes (strToLower t) k) = false →
        (R1.TRIGGER_KEYWORDS_EDUCATION.any fun k => jsIncludes (strToLower t) k) = false →
        (R1.TRIGGER_KEYWORDS_QUIZ.any fun k => jsIncludes (strToLower t) k) = false →
        R1.determineChatbotType t = "client")
    ∧ R1.determineChatbotType "" = "client" := by
  refine ⟨fun m => rfl, ?_, ?_, ?_, by decide, ?_, ?_, ?_, by decide⟩
  · intro m hq
    simp [WT.determineChatbotType, hq]
  · intro m hq he
    simp [WT.determineChatbotType, hq, he]
  · intro m hq he
    simp [WT.determineChatbotType, hq, he]
  · intro t he hq
    simp [R1.determineChatbotType, he, hq]
  · intro t he _hq
    simp [R1.determineChatbotType, he]
  · intro t _hc he hq
    simp [R1.determineChatbotType, he, hq]

/-- Witness for C1 at concrete inputs: a quiz text, an education text and a
keyword-free text in each variant. -/
theorem c1_witness :
    WT.determineChatbotType ⟨"m1", "u", "0", "text", some "Play a game", none, none, none⟩
      = "quiz"
    ∧ WT.determineChatbotType ⟨"m2", "u", "0", "text", some "I want to learn math", none, none, none⟩
      = "education"
    ∧ WT.determineChatbotType wtHello = "customer-service"
    ∧ R1.determineChatbotType "quiz time" = "quiz"
    ∧ R1.determineChatbotType "my homework" = "education"
    ∧ R1.determineChatbotType "bonjour" = "client" :=
  ⟨c1_classifier_deterministic_and_prioritized.2.1 _ (by decide),
   c1_classifier_deterministic_and_prioritized.2.2.1 _ (by decide) (by decide),
   c1_classifier_deterministic_and_prioritized.2.2.2.1 _ (by decide) (by decide),
   c1_classifier_deterministic_and_prioritized.2.2.2.2.2.1 _ (by decide) (by decide),
   c1_classifier_deterministic_and_prioritized.2.2.2.2.2.2.1 _ (by decide) (by decide),
   c1_classifier_deterministic_and_prioritized.2.2.2.2.2.2.2.1 _ (by decide) (by decide) (by decide)⟩

/-! ## C9 — GET /webhook verification endpoint -/

/-- C9 counterexample: in webhook.ts a GET with no `hub.mode`/`hub.verify_token`
parameters is answered with 400, not with a 200 JSON health body as the
claim states (part_001 behaves the same way; only part_000 returns 200). -/
theorem c9_counterexample :
    WT.handleWebhookGet wtCfg ⟨none, none, none⟩ = (400, .empty)
    ∧ (WT.handleWebhookGet wtCfg ⟨none, none, none⟩).1 ≠ 200 := by decide

/-- C9 amended: in every variant, `hub.mode == 'subscribe'` with a token
equal to the configured verify token echoes the challenge verbatim with 200,
and a nonempty mode/token pair that does not match yields 403 with empty
body.  When mode or token is absent (or empty), only the part_000 router
responds 200 with a JSON health body; webhook.ts and part_001 respond 400. -/
theorem c9_amended_get_verification :
    (∀ (cfg : R1.Config) (q : R1.Query) (t : String),
        q.mode = some "subscribe" → q.token = some t → t ≠ "" →
        cfg.verifyToken = some t →
        R1.handleWebhookGet cfg q
          = (200, match q.challenge with
                  | some c => .text c
                  | none => .empty))
    ∧ (∀ (cfg : R1.Config) (q : R1.Query) (m t : String),
        q.mode = some m → m ≠ "" → q.token = some t → t ≠ "" →
        ¬(m = "subscribe" ∧ cfg.verifyToken = some t) →
        R1.handleWebhookGet cfg q = (403, .empty))
    ∧ (∀ (cfg : R1.Config) (q : R1.Query),
        (truthyOptStr q.mode && truthyOptStr q.token) = false →
        R1.handleWebhookGet cfg q = (200, .health))
    ∧ (∀ (cfg : WT.Config) (q : WT.Query) (t : String),
        q.mode = some "subscribe" → q.token = some t → t ≠ "" →
        t = WT.VERIFY_TOKEN cfg →
        WT.handleWebhookGet cfg q
          = (200, match q.challenge with
                  | some c => .text c
                  | none => .empty))
    ∧ (∀ (cfg : WT.Config) (q : WT.Query) (m t : String),
        q.mode = some m → m ≠ "" → q.token = some t → t ≠ "" →
        ¬(m = "subscribe" ∧ t = WT.VERIFY_TOKEN cfg) →
        WT.handleWebhookGet cfg q = (403, .empty))
    ∧ (∀ (cfg : WT.Config) (q : WT.Query),
        (truthyOptStr q.mode && truthyOptStr q.token) = false →
        WT.handleWebhookGet cfg q = (400, .empty))
    ∧ (∀ (cfg : A1.Config) (q : A1.Query) (t : String),
        q.mode = some "subscribe" → q.token = some t → t ≠ "" →
        cfg.verifyToken = some t →
        A1.handleWebhookGet cfg q
          = (200, match q.challenge with
                  | some c => .text c
                  | none => .empty))
    ∧ (∀ (cfg : A1.Config) (q : A1.Query),
        (truthyOptStr q.mode && truthyOptStr q.token) = false →
        A1.handleWebhookGet cfg q = (400, .empty)) := by
  refine ⟨?_, ?_, ?_, ?_, ?_, ?_, ?_, ?_⟩
  · intro cfg q t hm ht hne hv
    simp [R1.handleWebhookGet, hm, ht, truthyOptStr, truthyStr_of_ne t hne,
      R1.tokenMatches, hv, (by decide : truthyStr "subscribe" = true)]
  · intro cfg q m t hm hmne ht htne hno
    simp only [R1.handleWebhookGet, hm, ht]
    rw [if_pos]
    · rw [if_neg]
      intro hand
      exact hno ⟨by simpa using hand.1, hand.2⟩
    · simp [truthyStr_of_ne m hmne, truthyStr_of_ne t htne, truthyOptStr]
  · intro cfg q h
    simp [R1.handleWebhookGet, h]
  · intro cfg q t hm ht hne hv
    simp [WT.handleWebhookGet, hm, ht, truthyOptStr, hv,
      truthyStr_of_ne (WT.VERIFY_TOKEN cfg) (hv ▸ hne),
      (by decide : truthyStr "subscribe" = true)]
  · intro cfg q m t hm hmne ht htne hno
    simp only [WT.handleWebhookGet, hm, ht]
    rw [if_pos]
    · rw [if_neg]
      intro hand
      exact hno ⟨by simpa using hand.1, by simpa using hand.2⟩
    · simp [truthyStr_of_ne m hmne, truthyStr_of_ne t htne, truthyOptStr]
  · intro cfg q h
    simp [WT.handleWebhookGet, h]
  · intro cfg q t hm ht hne hv
    simp [A1.handleWebhookGet, hm, ht, truthyOptStr, truthyStr_of_ne t hne,
      A1.tokenMatches, hv, (by decide : truthyStr "subscribe" = true)]
  · intro cfg q h
    simp [A1.handleWebhookGet, h]

/-- Witness for C9 at concrete inputs: a matching subscribe, a wrong token,
and a parameterless health probe per variant. -/
theorem c9_witness :
    R1.handleWebhookGet ⟨some "tok", none, none, fun _ => true⟩
        ⟨some "subscribe", some "tok", some "abc"⟩ = (200, .text "abc")
    ∧ R1.handleWebhookGet ⟨some "tok", none, none, fun _ => true⟩
        ⟨some "subscribe", some "WRONG", some "abc"⟩ = (403, .empty)
    ∧ R1.handleWebhookGet ⟨some "tok", none, none, fun _ => true⟩
        ⟨none, none, none⟩ = (200, .health)
    ∧ WT.handleWebhookGet wtCfg
        ⟨some "subscribe", some "your_verification_token_here", some "xyz"⟩
        = (200, .text "xyz")
    ∧ WT.handleWebhookGet wtCfg ⟨some "subscribe", some "WRONG", none⟩ = (403, .empty)
    ∧ A1.handleWebhookGet ⟨some "tok", none, none, fun _ => true⟩
        ⟨none, some "tok", none⟩ = (400, .empty) :=
  ⟨c9_amended_get_verification.1 _ ⟨some "subscribe", some "tok", some "abc"⟩ "tok"
      rfl rfl (by decide) rfl,
   c9_amended_get_verification.2.1 _ ⟨some "subscribe", some "WRONG", some "abc"⟩
      "subscribe" "WRONG" rfl (by decide) rfl (by decide) (by decide),
   c9_amended_get_verification.2.2.1 _ _ (by decide),
   c9_amended_get_verification.2.2.2.1 _
      ⟨some "subscribe", some "your_verification_token_here", some "xyz"⟩
      "your_verification_token_here" rfl rfl (by decide) (by decide),
   c9_amended_get_verification.2.2.2.2.1 _ ⟨some "subscribe", some "WRONG", none⟩
      "subscribe" "WRONG" rfl (by decide) rfl (by decide) (by decide),
   c9_amended_get_verification.2.2.2.2.2.2.2 _ _ (by decide)⟩

/-! ## C7 — acknowledgement policy of POST /webhook -/

/-- Number of attempted outbound POSTs in a webhook.ts trace. -/
def WT.countPosts (tr : List WT.Eff) : Nat :=
  (tr.filterMap fun e => match e with | .post u p => some (u, p) | _ => none).length

theorem countPosts_append (a b : List WT.Eff) :
    WT.countPosts (a ++ b) = WT.countPosts a + WT.countPosts b := by
  simp [WT.countPosts, List.filterMap_append]

theorem countPosts_flatMap_one {α : Type} (f : α → List WT.Eff)
    (h : ∀ a, WT.countPosts (f a) = 1) (l : List α) :
    WT.countPosts (l.flatMap f) = l.length := by
  induction l with
  | nil => rfl
  | cons a t ih =>
    rw [List.flatMap_cons, countPosts_append, h, ih, List.length_cons]
    omega

/-- C7 counterexample: in part_001 (both variants) the `try` wraps the whole
status loop, so the first failed status relay aborts the remaining status
events of the request.  Here a request carries two statuses and every relay
call fails: only the first status is attempted (one error is logged, the
response is still 200) and the second status produces no outbound call —
processing does NOT continue with the next event after a per-event error. -/
theorem c7_counterexample :
    A2.handleWebhookPost
        ⟨none, some "https://b.example", none, none, none, .netFail,
         fun _ => false, fun _ => true⟩
        ⟨"whatsapp_business_account", some [⟨some [⟨⟨none,
          some [⟨"s1", "delivered", "90", "u1"⟩, ⟨"s2", "delivered", "91", "u1"⟩],
          none⟩⟩]⟩]⟩
      = (200, [.postStatus "https://b.example/functions/v1/status-handler" "s1",
               .err "Error forwarding status updates"])
    ∧ A2.Eff.postStatus "https://b.example/functions/v1/status-handler" "s2"
        ∉ (A2.handleWebhookPost
        ⟨none, some "https://b.example", none, none, none, .netFail,
         fun _ => false, fun _ => true⟩
        ⟨"whatsapp_business_account", some [⟨some [⟨⟨none,
          some [⟨"s1", "delivered", "90", "u1"⟩, ⟨"s2", "delivered", "91", "u1"⟩],
          none⟩⟩]⟩]⟩).2 := by
  decide

/-- C7 amended: exactly one HTTP response is produced per POST /webhook
request (the handler models return a single status), and no per-event
failure can turn into a 500: for every configuration and every outcome
oracle, webhook.ts answers 200 (or 400 for a body without an entry array)
and the part_001 variant always answers 200; the 500 branch of both
handlers corresponds only to a top-level exception.  After a per-event
error, processing continues with the next event in webhook.ts — its trace
is the concatenation of per-change traces, and its status loop attempts
exactly one POST per status element under every failure pattern — and in
part_001's message loop, whose trace is the concatenation of the per-message
traces.  But in part_001's status loop the `try` wraps the whole loop: when
the relay call fails, the first status logs one error and the remaining
status events are dropped; only when the relay URL succeeds is one POST
made per status element. -/
theorem c7_amended_ack_and_continuation :
    (∀ (cfg : WT.Config) (body : WT.Envelope),
        (WT.handleWebhookPost cfg body).1 = 200 ∨ (WT.handleWebhookPost cfg body).1 = 400)
    ∧ (∀ (cfg : WT.Config) (body : WT.Envelope), (WT.handleWebhookPost cfg body).1 ≠ 500)
    ∧ (∀ (cfg : A2.Config) (body : A2.Envelope), (A2.handleWebhookPost cfg body).1 = 200)
    ∧ (∀ (cfg : A2.Config) (body : A2.Envelope), (A2.handleWebhookPost cfg body).1 ≠ 500)
    ∧ (∀ (cfg : WT.Config) (obj : String) (entries : List WT.Entry),
        (WT.handleWebhookPost cfg ⟨obj, some entries⟩).2
          = entries.flatMap fun e =>
              (match e.changes with
               | none => []
               | some cs => cs.flatMap (WT.processChange cfg)))
    ∧ (∀ (cfg : WT.Config) (v : WT.ChangeValue) (sts : List WT.StatusUpdate),
        v.statuses = some sts →
        WT.countPosts (WT.processStatusUpdates cfg v) = sts.length)
    ∧ (∀ (cfg : A2.Config) (body : A2.Envelope) (v : A2.ChangeValue)
         (msgs : List A2.Message),
        A2.firstValue body = some v →
        v.statuses = none →
        v.messages = some msgs →
        (A2.handleWebhookPost cfg body).2 = msgs.flatMap (A2.processIncomingMessage cfg))
    ∧ (∀ (cfg : A2.Config) (s : A2.StatusUpdate) (rest : List A2.StatusUpdate),
        cfg.net (tmplStr cfg.bolt ++ "/functions/v1/status-handler") = false →
        A2.statusLoop cfg (s :: rest)
          = [.postStatus (tmplStr cfg.bolt ++ "/functions/v1/status-handler") s.id,
             .err "Error forwarding status updates"])
    ∧ (∀ (cfg : A2.Config) (sts : List A2.StatusUpdate),
        cfg.net (tmplStr cfg.bolt ++ "/functions/v1/status-handler") = true →
        A2.statusLoop cfg sts
          = sts.map fun s =>
              .postStatus (tmplStr cfg.bolt ++ "/functions/v1/status-handler") s.id) := by
  have hwt : ∀ (cfg : WT.Config) (body : WT.Envelope),
      (WT.handleWebhookPost cfg body).1 = 200 ∨ (WT.handleWebhookPost cfg body).1 = 400 := by
    intro cfg body
    cases h : body.entry with
    | none => right; simp [WT.handleWebhookPost, h]
    | some entries => left; simp [WT.handleWebhookPost, h]
  have ha2 : ∀ (cfg : A2.Config) (body : A2.Envelope),
      (A2.handleWebhookPost cfg body).1 = 200 := by
    intro cfg body
    cases h : A2.firstValue body with
    | none => simp [A2.handleWebhookPost, h]
    | some v =>
      cases hs : v.statuses with
      | some sts => simp [A2.handleWebhookPost, h, hs]
      | none =>
        cases hm : v.messages with
        | some msgs => simp [A2.handleWebhookPost, h, hs, hm]
        | none => simp [A2.handleWebhookPost, h, hs, hm]
  refine ⟨hwt, ?_, ha2, ?_, ?_, ?_, ?_, ?_, ?_⟩
  · intro cfg body
    rcases hwt cfg body with h | h <;> omega
  · intro cfg body
    rw [ha2 cfg body]; omega
  · intro cfg obj entries
    simp [WT.handleWebhookPost]
  · intro cfg v sts hs
    unfold WT.processStatusUpdates
    rw [hs]
    apply countPosts_flatMap_one
    intro s
    dsimp only
    by_cases hn : cfg.net (WT.BOLT_WEBHOOK_ENDPOINT cfg ++ "/api/webhook/status")
      <;> simp [WT.countPosts, hn]
  · intro cfg body v msgs hv hs hm
    simp [A2.handleWebhookPost, hv, hs, hm]
  · intro cfg s rest hn
    unfold A2.statusLoop
    dsimp only
    rw [hn]
    simp
  · intro cfg sts hn
    induction sts with
    | nil => rfl
    | cons s rest ih =>
      unfold A2.statusLoop
      dsimp only
      rw [hn, ih]
      simp

/-- Witness for C7 at concrete inputs: webhook.ts attempts both statuses of
a Change even when every relay call fails, while part_001's status loop
attempts only the first status when the relay fails, and both statuses when
it succeeds; part_001's message loop is the concatenation of the
per-message traces. -/
theorem c7_witness :
    WT.countPosts (WT.processStatusUpdates ⟨none, none, fun _ => false⟩
        ⟨none, none, some [⟨"s1", "delivered", "90", "u1"⟩,
                           ⟨"s2", "delivered", "91", "u1"⟩]⟩) = 2
    ∧ A2.statusLoop
        ⟨none, some "https://b.example", none, none, none, .netFail,
         fun _ => false, fun _ => true⟩
        [⟨"s1", "delivered", "90", "u1"⟩, ⟨"s2", "delivered", "91", "u1"⟩]
      = [.postStatus "https://b.example/functions/v1/status-handler" "s1",
         .err "Error forwarding status updates"]
    ∧ A2.statusLoop
        ⟨none, some "https://b.example", none, none, none, .netFail,
         fun _ => true, fun _ => true⟩
        [⟨"s1", "delivered", "90", "u1"⟩, ⟨"s2", "delivered", "91", "u1"⟩]
      = [.postStatus "https://b.example/functions/v1/status-handler" "s1",
         .postStatus "https://b.example/functions/v1/status-handler" "s2"]
    ∧ (A2.handleWebhookPost
        ⟨none, some "https://b.example", none, none, none, .netFail,
         fun _ => true, fun _ => true⟩
        ⟨"whatsapp_business_account", some [⟨some [⟨⟨none, none,
          some [⟨"m1", "u1", "100", "text", some "hi"⟩]⟩⟩]⟩]⟩).2
      = [⟨"m1", "u1", "100", "text", some "hi"⟩].flatMap
          (A2.processIncomingMessage
            ⟨none, some "https://b.example", none, none, none, .netFail,
             fun _ => true, fun _ => true⟩) := by
  have h6 := c7_amended_ack_and_continuation.2.2.2.2.2.1 ⟨none, none, fun _ => false⟩
    ⟨none, none, some [⟨"s1", "delivered", "90", "u1"⟩, ⟨"s2", "delivered", "91", "u1"⟩]⟩
    [⟨"s1", "delivered", "90", "u1"⟩, ⟨"s2", "delivered", "91", "u1"⟩] rfl
  have h8 := c7_amended_ack_and_continuation.2.2.2.2.2.2.2.1
    ⟨none, some "https://b.example", none, none, none, .netFail,
     fun _ => false, fun _ => true⟩
    ⟨"s1", "delivered", "90", "u1"⟩ [⟨"s2", "delivered", "91", "u1"⟩] (by decide)
  have h9 := c7_amended_ack_and_continuation.2.2.2.2.2.2.2.2
    ⟨none, some "https://b.example", none, none, none, .netFail,
     fun _ => true, fun _ => true⟩
    [⟨"s1", "delivered", "90", "u1"⟩, ⟨"s2", "delivered", "91", "u1"⟩] (by decide)
  have h7 := c7_amended_ack_and_continuation.2.2.2.2.2.2.1
    ⟨none, some "https://b.example", none, none, none, .netFail,
     fun _ => true, fun _ => true⟩
    ⟨"whatsapp_business_account", some [⟨some [⟨⟨none, none,
      some [⟨"m1", "u1", "100", "text", some "hi"⟩]⟩⟩]⟩]⟩
    ⟨none, none, some [⟨"m1", "u1", "100", "text", some "hi"⟩]⟩
    [⟨"m1", "u1", "100", "text", some "hi"⟩] rfl rfl rfl
  refine ⟨h6, ?_, ?_, h7⟩
  · rw [h8]; decide
  · rw [h9]; decide

/-! ## C3 — object-marker rejection -/

/-- C3 counterexample: webhook.ts never inspects `body.object`.  A POST body
whose `object` is `"page"` but which carries a well-formed entry array is
processed normally: the response is 200 (not 404) and an outbound forward is
made. -/
theorem c3_counterexample :
    WT.handleWebhookPost wtCfg
        ⟨"page", some [⟨some [⟨"messages", ⟨some ⟨some "123"⟩, some [wtHello], none⟩⟩]⟩]⟩
      = (200, [.post "https://your-bolt-app.com/api/webhook/customer-service" (some "123")])
    ∧ (WT.handleWebhookPost wtCfg
        ⟨"page", some [⟨some [⟨"messages", ⟨some ⟨some "123"⟩, some [wtHello], none⟩⟩]⟩]⟩).1
      ≠ 404 := by decide

/-- C3 amended: only the part_000 router rejects envelopes lacking the
business-account marker — it answers 404 and makes no outbound call for any
content of the request.  webhook.ts (and part_001) never inspect the
`object` field: webhook.ts answers 400 when the entry array is missing and
otherwise processes the request normally, so it never returns 404. -/
theorem c3_amended_object_marker :
    (∀ (cfg : R1.Config) (body : R1.Envelope),
        body.object ≠ "whatsapp_business_account" →
        R1.handleWebhookPost cfg body
          = (404, [.warn ("Received webhook event for " ++ body.object)])
        ∧ R1.callsOf (R1.handleWebhookPost cfg body).2 = [])
    ∧ (∀ (cfg : WT.Config) (body : WT.Envelope),
        (WT.handleWebhookPost cfg body).1 ≠ 404) := by
  constructor
  · intro cfg body h
    constructor
    · simp [R1.handleWebhookPost, h]
    · simp [R1.handleWebhookPost, h, R1.callsOf, R1.callOf]
  · intro cfg body
    cases h : body.entry with
    | none => simp [WT.handleWebhookPost, h]
    | some entries => simp [WT.handleWebhookPost, h]

/-- Witness for C3 at a concrete input: a part_000 envelope with a
non-matching object marker but a full entry/change payload is answered 404
with no outbound call. -/
theorem c3_witness :
    R1.handleWebhookPost ⟨none, some "https://bolt.example", some "tok", fun _ => true⟩
        ⟨"page", some [⟨some [⟨"messages",
          ⟨some ⟨some "123"⟩, none,
           some [⟨"m1", "221111", "100", "text", some "hello", none, none⟩]⟩⟩]⟩]⟩
      = (404, [.warn "Received webhook event for page"])
    ∧ R1.callsOf (R1.handleWebhookPost
        ⟨none, some "https://bolt.example", some "tok", fun _ => true⟩
        ⟨"page", some [⟨some [⟨"messages",
          ⟨some ⟨some "123"⟩, none,
           some [⟨"m1", "221111", "100", "text", some "hello", none, none⟩]⟩⟩]⟩]⟩).2 = [] := by
  have h := c3_amended_object_marker.1
    ⟨none, some "https://bolt.example", some "tok", fun _ => true⟩
    ⟨"page", some [⟨some [⟨"messages",
      ⟨some ⟨some "123"⟩, none,
       some [⟨"m1", "221111", "100", "text", some "hello", none, none⟩]⟩⟩]⟩]⟩
    (by decide)
  exact ⟨h.1, h.2⟩

/-! ## C2 — missing tenant id: per-Change isolation -/

/-- C2 counterexample: in webhook.ts a messages-field Change whose
`metadata.phone_number_id` is absent is NOT skipped — the message is still
forwarded (with an undefined tenant id in the payload) and no error is
logged, contradicting "zero outbound HTTP calls and one logged error". -/
theorem c2_counterexample :
    WT.processChange wtCfg ⟨"messages", ⟨none, some [wtHello], none⟩⟩
      = [.post "https://your-bolt-app.com/api/webhook/customer-service" none]
    ∧ ((WT.processChange wtCfg ⟨"messages", ⟨none, some [wtHello], none⟩⟩).filter
        fun e => match e with | .err _ => true | _ => false) = [] := by decide

/-- C2 amended: the per-Change tenant gating exists only in the part_000
router: there, a messages-field Change with a falsy
`metadata.phone_number_id` produces exactly one logged error and zero
outbound calls, and the handler's trace is the concatenation of the
independent per-Change traces, so sibling Changes and Entries are processed
normally.  In webhook.ts such a Change is still forwarded with an undefined
tenant id, and in part_001 (which only ever examines the first Change of the
first Entry) a missing tenant id ends the whole request with one logged
error. -/
theorem c2_amended_missing_tenant :
    (∀ (cfg : R1.Config) (c : R1.Change),
        c.field = "messages" →
        truthyOptStr (R1.pidOf c.value) = false →
        R1.processChange cfg c = [.err "Missing phone_number_id in webhook payload"]
        ∧ R1.callsOf (R1.processChange cfg c) = [])
    ∧ (∀ (cfg : R1.Config) (obj : String) (entries : List R1.Entry),
        obj = "whatsapp_business_account" →
        (R1.handleWebhookPost cfg ⟨obj, some entries⟩).2
          = entries.flatMap fun e => (e.changes.getD []).flatMap (R1.processChange cfg))
    ∧ (∀ (cfg : A1.Config) (body : A1.Envelope) (v : A1.ChangeValue),
        A1.firstValue body = some v →
        v.statuses = none →
        v.messages.isSome →
        truthyOptStr (v.metadata.bind A1.Metadata.phone_number_id) = false →
        A1.handleWebhookPost cfg body
          = (200, [.err "CRITICAL: phone_number_id not found in webhook metadata"])) := by
  refine ⟨?_, ?_, ?_⟩
  · intro cfg c hf hp
    constructor
    · simp [R1.processChange, hf, hp]
    · simp [R1.processChange, hf, hp, R1.callsOf, R1.callOf]
  · intro cfg obj entries hobj
    simp [R1.handleWebhookPost, hobj]
  · intro cfg body v hv hs hm hp
    rcases hmm : v.messages with _ | msgs
    · rw [hmm] at hm; simp at hm
    · simp [A1.handleWebhookPost, hv, hs, hmm, hp]

/-- Witness for C2 at concrete inputs: in part_000, a request with two
Changes — the first lacking its tenant id, the second complete — yields one
error for the first Change while the second is still forwarded. -/
theorem c2_witness :
    R1.processChange ⟨none, some "https://bolt.example", some "tok", fun _ => true⟩
        ⟨"messages", ⟨some ⟨none⟩, none,
          some [⟨"m1", "221111", "100", "text", some "hello", none, none⟩]⟩⟩
      = [.err "Missing phone_number_id in webhook payload"]
    ∧ (R1.handleWebhookPost ⟨none, some "https://bolt.example", some "tok", fun _ => true⟩
        ⟨"whatsapp_business_account", some [⟨some
          [⟨"messages", ⟨some ⟨none⟩, none,
             some [⟨"m1", "221111", "100", "text", some "hello", none, none⟩]⟩⟩,
           ⟨"messages", ⟨some ⟨some "456"⟩, none,
             some [⟨"m2", "221222", "101", "text", some "hello", none, none⟩]⟩⟩]⟩]⟩).2
      = [R1.Eff.err "Missing phone_number_id in webhook payload",
         R1.Eff.postDown "https://bolt.example/api/chatbot/client"
           (.pm ⟨"456", "221222", some "hello", none, none, none, "m2", "101"⟩)] := by
  have h1 := (c2_amended_missing_tenant.1
    ⟨none, some "https://bolt.example", some "tok", fun _ => true⟩
    ⟨"messages", ⟨some ⟨none⟩, none,
      some [⟨"m1", "221111", "100", "text", some "hello", none, none⟩]⟩⟩
    rfl (by decide)).1
  have h2 := c2_amended_missing_tenant.2.1
    ⟨none, some "https://bolt.example", some "tok", fun _ => true⟩
    "whatsapp_business_account"
    [⟨some [⟨"messages", ⟨some ⟨none⟩, none,
        some [⟨"m1", "221111", "100", "text", some "hello", none, none⟩]⟩⟩,
      ⟨"messages", ⟨some ⟨some "456"⟩, none,
        some [⟨"m2", "221222", "101", "text", some "hello", none, none⟩]⟩⟩]⟩] rfl
  exact ⟨h1, by rw [h2]; decide⟩

/-! ## C4 — unset downstream endpoint -/

/-- The auto-response fallback makes provider calls only, never a
downstream call. -/
theorem sendAutoResponse_no_down (cfg : R1.Config) (pid toN : String)
    (om : Option String) (ct : String) (u : String) (p : R1.Payload) :
    R1.Eff.postDown u p ∉ R1.sendAutoResponse cfg pid toN om ct := by
  unfold R1.sendAutoResponse
  split
  · simp
  · dsimp only
    split <;> simp

/-- C4 counterexample: webhook.ts defaults an unset BOLT_WEBHOOK_ENDPOINT to
the placeholder `https://your-bolt-app.com` and still attempts the
downstream network call — here the attempt even succeeds, so no failure is
reported and no fallback runs, contradicting "never attempts a network call
and always reports failure". -/
theorem c4_counterexample :
    WT.processMessage wtCfg wtHello (some "123")
      = [.post "https://your-bolt-app.com/api/webhook/customer-service" (some "123")]
    ∧ WT.processMessage wtCfg wtHello (some "123") ≠ [] := by decide

/-- C4 amended: in the part_000 forwarder an unset or empty base endpoint
makes no downstream call and goes directly to the auto-response fallback
(the trace is exactly the warning followed by the fallback's own trace).
webhook.ts instead substitutes the placeholder default URL and still
attempts the downstream call, and part_001 interpolates the undefined
endpoint into the URL and still attempts the call; in those variants only a
failure of that attempt leads to their respective fallbacks. -/
theorem c4_amended_unset_endpoint :
    (∀ (cfg : R1.Config) (ct : String) (md : R1.MessageData),
        truthyOptStr cfg.bolt = false →
        R1.forwardMessage cfg ct md
          = .warn "BOLT_WEBHOOK_ENDPOINT not set or empty, sending auto-response instead"
            :: R1.sendAutoResponse cfg md.phoneNumberId md.sender md.text ct
        ∧ ∀ (u : String) (p : R1.Payload),
            R1.Eff.postDown u p ∉ R1.forwardMessage cfg ct md)
    ∧ (∀ (cfg : WT.Config) (m : WT.Message) (pid : Option String),
        cfg.boltEnv = none →
        (WT.processMessage cfg m pid).head?
          = some (.post ("https://your-bolt-app.com/api/webhook/"
              ++ WT.determineChatbotType m) pid))
    ∧ (∀ (cfg : A1.Config) (m : A1.Message) (pid : String),
        cfg.bolt = none →
        truthyOptStr m.text = true →
        (A1.processIncomingMessage cfg m pid).head?
          = some (.post "undefined/functions/v1/api-chatbot" pid (m.text.getD ""))) := by
  refine ⟨?_, ?_, ?_⟩
  · intro cfg ct md h
    have heq : R1.forwardMessage cfg ct md
        = .warn "BOLT_WEBHOOK_ENDPOINT not set or empty, sending auto-response instead"
          :: R1.sendAutoResponse cfg md.phoneNumberId md.sender md.text ct := by
      simp [R1.forwardMessage, h]
    refine ⟨heq, ?_⟩
    intro u p
    rw [heq]
    intro hmem
    rcases List.mem_cons.1 hmem with h1 | h1
    · exact absurd h1 (by simp)
    · exact sendAutoResponse_no_down cfg md.phoneNumberId md.sender md.text ct u p h1
  · intro cfg m pid h
    unfold WT.processMessage
    rw [show WT.BOLT_WEBHOOK_ENDPOINT cfg = "https://your-bolt-app.com" by
      simp [WT.BOLT_WEBHOOK_ENDPOINT, jsOrD, h]]
    rw [show ("https://your-bolt-app.com" ++ "/api/webhook/" : String)
        = "https://your-bolt-app.com/api/webhook/" from by decide]
    dsimp only
    split <;> simp
  · intro cfg m pid hb ht
    unfold A1.processIncomingMessage
    rw [hb, ht]
    rw [show ((tmplStr none : String) ++ "/functions/v1/api-chatbot")
        = "undefined/functions/v1/api-chatbot" from by decide]
    simp only [Bool.not_true, Bool.false_eq_true, if_false]
    split <;> simp

/-- Witness for C4 at concrete inputs: part_000 with the endpoint unset
warns and runs the auto-response fallback without any downstream call, while
webhook.ts and part_001 still attempt a downstream post. -/
theorem c4_witness :
    R1.forwardMessage ⟨none, none, some "tok", fun _ => true⟩ "client"
        ⟨"123", "221111", some "hello", none, none, none, "m1", "100"⟩
      = [.warn "BOLT_WEBHOOK_ENDPOINT not set or empty, sending auto-response instead",
         .postProvider "https://graph.facebook.com/v19.0/123/messages" "221111"
           (R1.autoMessage "client")]
    ∧ (WT.processMessage wtCfg wtHello none).head?
      = some (.post "https://your-bolt-app.com/api/webhook/customer-service" none)
    ∧ (A1.processIncomingMessage ⟨none, none, none, fun _ => true⟩
        ⟨"m1", "221111", "100", "text", some "hi"⟩ "123").head?
      = some (.post "undefined/functions/v1/api-chatbot" "123" "hi") := by
  have h1 := (c4_amended_unset_endpoint.1 ⟨none, none, some "tok", fun _ => true⟩ "client"
    ⟨"123", "221111", some "hello", none, none, none, "m1", "100"⟩ (by decide)).1
  have h2 := c4_amended_unset_endpoint.2.1 wtCfg wtHello none rfl
  have h3 := c4_amended_unset_endpoint.2.2 ⟨none, none, none, fun _ => true⟩
    ⟨"m1", "221111", "100", "text", some "hi"⟩ "123" rfl (by decide)
  refine ⟨?_, ?_, ?_⟩
  · rw [h1]; decide
  · rw [h2]; decide
  · rw [h3]; decide

/-! ## C5 — denylisted host behaves like unset endpoint -/

/-- C5: in the part_000 router, forwarding to a denylisted host (a base URL
containing `localhost`, `127.0.0.1` or
`local-credentialless.webcontainer-api.io`) produces exactly the same
outbound calls as forwarding with the endpoint unset: the downstream network
call is skipped, and for messages the auto-response fallback path is taken
(the outbound calls are exactly those of `sendAutoResponse`), while for
status updates both configurations make no call at all. -/
theorem c5_denylist_equals_unset :
    ∀ (base : String) (vt mTok : Option String) (net : String → Bool)
      (ct : String) (md : R1.MessageData) (pid : String) (s : R1.StatusUpdate),
      truthyStr base = true →
      R1.denylisted base = true →
      R1.forwardMessage ⟨vt, some base, mTok, net⟩ ct md
        = .warn "Local development URL detected in production environment, sending auto-response instead"
          :: R1.sendAutoResponse ⟨vt, some base, mTok, net⟩ md.phoneNumberId md.sender md.text ct
      ∧ R1.callsOf (R1.forwardMessage ⟨vt, some base, mTok, net⟩ ct md)
          = R1.callsOf (R1.forwardMessage ⟨vt, none, mTok, net⟩ ct md)
      ∧ R1.callsOf (R1.forwardMessage ⟨vt, some base, mTok, net⟩ ct md)
          = R1.callsOf (R1.sendAutoResponse ⟨vt, some base, mTok, net⟩
              md.phoneNumberId md.sender md.text ct)
      ∧ (∀ (u : String) (p : R1.Payload),
          R1.Eff.postDown u p ∉ R1.forwardMessage ⟨vt, some base, mTok, net⟩ ct md)
      ∧ R1.handleStatusUpdate ⟨vt, some base, mTok, net⟩ pid s
          = [.warn "Local development URL detected in production environment, skipping status update forwarding"]
      ∧ R1.callsOf (R1.handleStatusUpdate ⟨vt, some base, mTok, net⟩ pid s)
          = R1.callsOf (R1.handleStatusUpdate ⟨vt, none, mTok, net⟩ pid s) := by
  intro base vt mTok net ct md pid s hb hd
  have hauto : R1.sendAutoResponse ⟨vt, some base, mTok, net⟩
      md.phoneNumberId md.sender md.text ct
      = R1.sendAutoResponse ⟨vt, none, mTok, net⟩ md.phoneNumberId md.sender md.text ct := rfl
  have hfwdD : R1.forwardMessage ⟨vt, some base, mTok, net⟩ ct md
      = .warn "Local development URL detected in production environment, sending auto-response instead"
        :: R1.sendAutoResponse ⟨vt, some base, mTok, net⟩ md.phoneNumberId md.sender md.text ct := by
    simp [R1.forwardMessage, truthyOptStr, hb, hd]
  have hfwdU : R1.forwardMessage ⟨vt, none, mTok, net⟩ ct md
      = .warn "BOLT_WEBHOOK_ENDPOINT not set or empty, sending auto-response instead"
        :: R1.sendAutoResponse ⟨vt, none, mTok, net⟩ md.phoneNumberId md.sender md.text ct := by
    simp [R1.forwardMessage, truthyOptStr]
  have hcw : ∀ (w : String) (tr : List R1.Eff),
      R1.callsOf (.warn w :: tr) = R1.callsOf tr := by
    intro w tr
    simp [R1.callsOf, R1.callOf]
  have hsD : R1.handleStatusUpdate ⟨vt, some base, mTok, net⟩ pid s
      = [.warn "Local development URL detected in production environment, skipping status update forwarding"] := by
    simp [R1.handleStatusUpdate, truthyOptStr, hb, hd]
  have hsU : R1.handleStatusUpdate ⟨vt, none, mTok, net⟩ pid s
      = [.warn "BOLT_WEBHOOK_ENDPOINT not set or empty, skipping status update forwarding"] := by
    simp [R1.handleStatusUpdate, truthyOptStr]
  refine ⟨hfwdD, ?_, ?_, ?_, hsD, ?_⟩
  · rw [hfwdD, hfwdU, hcw, hcw, hauto]
  · rw [hfwdD, hcw]
  · intro u p
    rw [hfwdD]
    intro hmem
    rcases List.mem_cons.1 hmem with h1 | h1
    · exact absurd h1 (by simp)
    · exact sendAutoResponse_no_down _ md.phoneNumberId md.sender md.text ct u p h1
  · rw [hsD, hsU]
    simp [R1.callsOf, R1.callOf]

/-- Witness for C5 at a concrete denylisted base URL. -/
theorem c5_witness :
    R1.forwardMessage ⟨none, some "http://localhost:3000", some "tok", fun _ => true⟩
        "quiz" ⟨"123", "221111", some "a quiz", none, none, none, "m1", "100"⟩
      = [.warn "Local development URL detected in production environment, sending auto-response instead",
         .postProvider "https://graph.facebook.com/v19.0/123/messages" "221111"
           (R1.autoMessage "quiz")]
    ∧ R1.handleStatusUpdate ⟨none, some "http://localhost:3000", some "tok", fun _ => true⟩
        "123" ⟨"m1", "delivered", "100", "221111"⟩
      = [.warn "Local development URL detected in production environment, skipping status update forwarding"] := by
  have h := c5_denylist_equals_unset "http://localhost:3000" none (some "tok")
    (fun _ => true) "quiz" ⟨"123", "221111", some "a quiz", none, none, none, "m1", "100"⟩
    "123" ⟨"m1", "delivered", "100", "221111"⟩ (by decide) (by decide)
  refine ⟨?_, h.2.2.2.2.1⟩
  rw [h.1]
  decide

/-! ## C6 — bounds on bodies sent to the provider send-message API -/

theorem strNeEmptyOfLenPos (s : String) (h : 0 < s.length) : s ≠ "" := by
  intro he
  rw [he] at h
  exact absurd h (by decide)

theorem truncLen (s : String) (h : 4096 < s.length) :
    (String.mk (s.data.take 4093) ++ "...").length = 4096 := by
  cases s with
  | mk l =>
    have hl : 4096 < l.length := h
    rw [String.length_append, strLen_mk, List.length_take,
      show ("..." : String).length = 3 from rfl,
      show (4093 : Nat) ⊓ l.length = 4093 from Nat.min_eq_left (by omega)]

/-- The bodies posted by `sendBotResponseToWhatsApp`, as a function of the
credential guard, the trimmed length, and the truncation branch. -/
theorem sendBot_bodies (cfg : A2.Config) (ph bm : String) :
    A2.postedBodies (A2.sendBotResponseToWhatsApp cfg ph bm)
      = if !truthyOptStr cfg.metaToken || !truthyOptStr cfg.metaPhoneId then []
        else if (jsTrim bm).length = 0 then []
        else if 4096 < (jsTrim bm).length
          then [String.mk ((jsTrim bm).data.take 4093) ++ "..."]
          else [jsTrim bm] := by
  unfold A2.sendBotResponseToWhatsApp
  split
  · simp [A2.postedBodies]
  · dsimp only
    split
    · simp [A2.postedBodies]
    · by_cases h4 : 4096 < (jsTrim bm).length
      · rw [if_pos h4]
        by_cases hw : cfg.waOk (String.mk ((jsTrim bm).data.take 4093) ++ "...")
        · simp [A2.postedBodies, h4, hw]
        · simp [A2.postedBodies, h4, hw]
      · rw [if_neg h4]
        by_cases hw : cfg.waOk (jsTrim bm)
        · simp [A2.postedBodies, h4, hw]
        · simp [A2.postedBodies, h4, hw]

/-- The bodies posted by `sendFallbackMessage`: nothing without credentials,
otherwise exactly the constant fallback text. -/
theorem sendFallback_bodies (cfg : A2.Config) (ph mid : String) :
    A2.postedBodies (A2.sendFallbackMessage cfg ph mid)
      = if !truthyOptStr cfg.metaToken || !truthyOptStr cfg.metaPhoneId then []
        else [A2.FALLBACK_MESSAGE] := by
  unfold A2.sendFallbackMessage
  split
  · simp [A2.postedBodies]
  · dsimp only
    by_cases hw : cfg.waOk A2.FALLBACK_MESSAGE
    · simp [A2.postedBodies, hw]
    · simp [A2.postedBodies, hw]

/-- C6: every body actually posted to the provider send-message API by the
fallback/auto-reply senders is nonempty and at most 4096 characters.  In
part_001's bot-response sender a trimmed body longer than 4096 characters is
replaced by its first 4093 characters plus the marker `"..."`, giving
exactly 4096 characters; part_001's fallback sender only ever posts the
constant `FALLBACK_MESSAGE` and part_000's auto-responder only ever posts
one of the three canned `autoMessage` strings, all far below the limit. -/
theorem c6_sent_body_bounds :
    (∀ (cfg : A2.Config) (ph bm b : String),
        b ∈ A2.postedBodies (A2.sendBotResponseToWhatsApp cfg ph bm) →
        b ≠ "" ∧ b.length ≤ 4096)
    ∧ (∀ (cfg : A2.Config) (ph bm : String),
        truthyOptStr cfg.metaToken = true →
        truthyOptStr cfg.metaPhoneId = true →
        4096 < (jsTrim bm).length →
        A2.postedBodies (A2.sendBotResponseToWhatsApp cfg ph bm)
          = [String.mk ((jsTrim bm).data.take 4093) ++ "..."]
        ∧ (String.mk ((jsTrim bm).data.take 4093) ++ "...").length = 4096)
    ∧ (∀ (cfg : A2.Config) (ph mid b : String),
        b ∈ A2.postedBodies (A2.sendFallbackMessage cfg ph mid) →
        b = A2.FALLBACK_MESSAGE)
    ∧ A2.FALLBACK_MESSAGE ≠ "" ∧ A2.FALLBACK_MESSAGE.length ≤ 4096
    ∧ (∀ (cfg : R1.Config) (pid toN : String) (om : Option String) (ct : String)
         (u t b : String),
        R1.Eff.postProvider u t b ∈ R1.sendAutoResponse cfg pid toN om ct →
        b = R1.autoMessage ct)
    ∧ (∀ ct : String, R1.autoMessage ct ≠ "" ∧ (R1.autoMessage ct).length ≤ 4096) := by
  refine ⟨?_, ?_, ?_, by decide, by decide, ?_, ?_⟩
  · intro cfg ph bm b hb
    rw [sendBot_bodies] at hb
    split at hb
    · simp at hb
    · split at hb
      · simp at hb
      · split at hb
        · rename_i hlen h4
          rw [List.mem_singleton] at hb
          subst hb
          constructor
          · exact strNeEmptyOfLenPos _ (by rw [truncLen _ h4]; omega)
          · rw [truncLen _ h4]
        · rename_i hlen h4
          rw [List.mem_singleton] at hb
          subst hb
          exact ⟨strNeEmptyOfLenPos _ (by omega), by omega⟩
  · intro cfg ph bm h1 h2 h4
    rw [sendBot_bodies, h1, h2]
    refine ⟨?_, truncLen _ h4⟩
    rw [if_neg (by simp), if_neg (by omega), if_pos h4]
  · intro cfg ph mid b hb
    rw [sendFallback_bodies] at hb
    split at hb
    · simp at hb
    · rw [List.mem_singleton] at hb
      exact hb
  · intro cfg pid toN om ct u t b hmem
    unfold R1.sendAutoResponse at hmem
    split at hmem
    · simp at hmem
    · dsimp only at hmem
      split at hmem <;> simp at hmem <;> exact hmem.2.2
  · intro ct
    unfold R1.autoMessage
    split
    · exact ⟨by decide, by decide⟩
    · exact ⟨by decide, by decide⟩
    · exact ⟨by decide, by decide⟩

/-- A 4100-character bot message, used to exercise the truncation branch. -/
def longBotMessage : String := String.mk (List.replicate 4100 'a')

theorem dropWhile_replicate_a (n : Nat) :
    (List.replicate n 'a').dropWhile wsChar = List.replicate n 'a' := by
  cases n with
  | zero => rfl
  | succ k =>
    rw [List.replicate_succ, List.dropWhile_cons,
      if_neg (by rw [show wsChar 'a' = false from by decide]; simp)]

theorem jsTrim_longBotMessage : jsTrim longBotMessage = longBotMessage := by
  unfold jsTrim longBotMessage
  rw [show (String.mk (List.replicate 4100 'a')).data = List.replicate 4100 'a' from rfl,
    dropWhile_replicate_a, List.reverse_replicate, dropWhile_replicate_a,
    List.reverse_replicate]

theorem longBotMessage_len : 4096 < (jsTrim longBotMessage).length := by
  rw [jsTrim_longBotMessage]
  unfold longBotMessage
  rw [strLen_mk, List.length_replicate]
  omega

/-- Witness for C6 at concrete inputs: a short bot message is sent verbatim
and satisfies the bounds; a 4100-character bot message is truncated to
exactly 4096 characters; the fallback sender posts the constant text; the
part_000 auto-responder posts the quiz canned reply. -/
theorem c6_witness :
    (("hello" : String) ≠ "" ∧ ("hello" : String).length ≤ 4096)
    ∧ A2.postedBodies (A2.sendBotResponseToWhatsApp
          ⟨none, none, some "tok", some "555", none, .reply 200 true "ok",
           fun _ => true, fun _ => true⟩ "221" longBotMessage)
        = [String.mk ((jsTrim longBotMessage).data.take 4093) ++ "..."]
    ∧ (String.mk ((jsTrim longBotMessage).data.take 4093) ++ "...").length = 4096
    ∧ A2.FALLBACK_MESSAGE = A2.FALLBACK_MESSAGE
    ∧ R1.autoMessage "quiz" = R1.autoMessage "quiz" := by
  have h1 := c6_sent_body_bounds.1
    ⟨none, none, some "tok", some "555", none, .reply 200 true "ok",
     fun _ => true, fun _ => true⟩ "221" "hello" "hello" (by decide)
  have h2 := c6_sent_body_bounds.2.1
    ⟨none, none, some "tok", some "555", none, .reply 200 true "ok",
     fun _ => true, fun _ => true⟩ "221" longBotMessage
    (by decide) (by decide) longBotMessage_len
  have h3 := c6_sent_body_bounds.2.2.1
    ⟨none, none, some "tok", some "555", none, .reply 200 true "ok",
     fun _ => true, fun _ => true⟩ "221" "m1" A2.FALLBACK_MESSAGE (by decide)
  have h5 := c6_sent_body_bounds.2.2.2.2.2.1
    ⟨none, some "https://bolt.example", some "tok", fun _ => true⟩ "123" "221" none "quiz"
    "https://graph.facebook.com/v19.0/123/messages" "221" (R1.autoMessage "quiz")
    (by decide)
  exact ⟨h1, h2.1, h2.2, h3 ▸ rfl, h5 ▸ rfl⟩

/-! ## C10 — bot-response send failure never triggers the fallback -/

/-- C10: in the part_001 variant that relays the Edge Function response,
when the Edge Function call returns 200 with the success flag and a nonempty
response, the whole per-message trace is the Edge call followed by the trace
of `sendBotResponseToWhatsApp` — whatever the WhatsApp send outcome is (the
send error is caught and swallowed inside that function), no fallback
message is appended, and the WhatsApp sends of the message are exactly the
bot-response sends.  The fallback sender runs exactly in the two Edge
Function failure cases: a network-level failure, or a response without
status 200 and a true success flag. -/
theorem c10_fallback_only_on_edge_failure :
    (∀ (cfg : A2.Config) (m : A2.Message) (r : String),
        cfg.edge = .reply 200 true r →
        truthyOptStr m.text = true →
        truthyStr r = true → truthyStr (jsTrim r) = true →
        A2.processIncomingMessage cfg m
          = .postEdge (tmplStr cfg.bolt ++ "/functions/v1/api-chatbot") (m.text.getD "")
            :: A2.sendBotResponseToWhatsApp cfg m.sender r)
    ∧ (∀ (cfg : A2.Config) (m : A2.Message) (r : String),
        cfg.edge = .reply 200 true r →
        truthyOptStr m.text = true →
        truthyStr r = true → truthyStr (jsTrim r) = true →
        A2.postedBodies (A2.processIncomingMessage cfg m)
          = A2.postedBodies (A2.sendBotResponseToWhatsApp cfg m.sender r))
    ∧ (∀ (cfg : A2.Config) (m : A2.Message),
        cfg.edge = .netFail →
        truthyOptStr m.text = true →
        A2.processIncomingMessage cfg m
          = [.postEdge (tmplStr cfg.bolt ++ "/functions/v1/api-chatbot") (m.text.getD ""),
             .err "Failed to forward to Edge Function"]
            ++ A2.sendFallbackMessage cfg m.sender m.id)
    ∧ (∀ (cfg : A2.Config) (m : A2.Message) (st : Nat) (su : Bool) (r : String),
        cfg.edge = .reply st su r →
        ¬(st = 200 ∧ su = true) →
        truthyOptStr m.text = true →
        A2.processIncomingMessage cfg m
          = [.postEdge (tmplStr cfg.bolt ++ "/functions/v1/api-chatbot") (m.text.getD ""),
             .err "Edge Function returned error",
             .err "Failed to forward to Edge Function"]
            ++ A2.sendFallbackMessage cfg m.sender m.id) := by
  have hsucc : ∀ (cfg : A2.Config) (m : A2.Message) (r : String),
      cfg.edge = .reply 200 true r →
      truthyOptStr m.text = true →
      truthyStr r = true → truthyStr (jsTrim r) = true →
      A2.processIncomingMessage cfg m
        = .postEdge (tmplStr cfg.bolt ++ "/functions/v1/api-chatbot") (m.text.getD "")
          :: A2.sendBotResponseToWhatsApp cfg m.sender r := by
    intro cfg m r he ht hr htr
    unfold A2.processIncomingMessage
    rw [ht, he]
    simp [hr, htr]
  refine ⟨hsucc, ?_, ?_, ?_⟩
  · intro cfg m r he ht hr htr
    rw [hsucc cfg m r he ht hr htr]
    simp [A2.postedBodies]
  · intro cfg m he ht
    unfold A2.processIncomingMessage
    rw [ht, he]
    simp
  · intro cfg m st su r he hno ht
    unfold A2.processIncomingMessage
    rw [ht, he]
    simp [hno]

/-- Witness for C10 at a concrete input where the Edge Function succeeds and
the WhatsApp send fails: the trace ends with the swallowed send error and
contains no fallback send. -/
theorem c10_witness :
    A2.processIncomingMessage
        ⟨none, none, some "tok", some "555", none, .reply 200 true "bonjour",
         fun _ => true, fun _ => false⟩
        ⟨"m1", "221", "100", "text", some "hi"⟩
      = [.postEdge "undefined/functions/v1/api-chatbot" "hi",
         .postWA "https://graph.facebook.com/v18.0/555/messages" "221" "bonjour",
         .err "Error sending bot response to WhatsApp"]
    ∧ A2.postedBodies (A2.processIncomingMessage
        ⟨none, none, some "tok", some "555", none, .reply 200 true "bonjour",
         fun _ => true, fun _ => false⟩
        ⟨"m1", "221", "100", "text", some "hi"⟩) = ["bonjour"] := by
  have h := c10_fallback_only_on_edge_failure.1
    ⟨none, none, some "tok", some "555", none, .reply 200 true "bonjour",
     fun _ => true, fun _ => false⟩
    ⟨"m1", "221", "100", "text", some "hi"⟩ "bonjour" rfl (by decide) (by decide) (by decide)
  constructor
  · rw [h]; decide
  · rw [h]; decide

/-! ## C8 — one emitted event per payload array element, in order -/

/-- C8 counterexample: the part_001 handler only ever examines
`entry[0].changes[0]`.  In a request with two entries, each carrying one
text message, only the first message is forwarded — the claim's "one Message
event per element over every Entry and every Change" fails. -/
theorem c8_counterexample :
    (A1.handleWebhookPost ⟨none, some "https://b.example", none, fun _ => true⟩
        ⟨"whatsapp_business_account", some
          [⟨some [⟨⟨some ⟨some "111"⟩, none, some [⟨"m1", "u1", "0", "text", some "hi1"⟩]⟩⟩]⟩,
           ⟨some [⟨⟨some ⟨some "222"⟩, none, some [⟨"m2", "u2", "0", "text", some "hi2"⟩]⟩⟩]⟩]⟩).2
      = [.post "https://b.example/functions/v1/api-chatbot" "111" "hi1"]
    ∧ A1.Eff.post "https://b.example/functions/v1/api-chatbot" "222" "hi2"
        ∉ (A1.handleWebhookPost ⟨none, some "https://b.example", none, fun _ => true⟩
        ⟨"whatsapp_business_account", some
          [⟨some [⟨⟨some ⟨some "111"⟩, none, some [⟨"m1", "u1", "0", "text", some "hi1"⟩]⟩⟩]⟩,
           ⟨some [⟨⟨some ⟨some "222"⟩, none, some [⟨"m2", "u2", "0", "text", some "hi2"⟩]⟩⟩]⟩]⟩).2 := by
  decide

namespace R1

/-- Domain events extracted from a trace: one per attempted downstream
forward, tagged with the source element's message id. -/
inductive Ev where
  | statusEv (messageId : String)
  | messageEv (messageId : String)
deriving DecidableEq

def eventOf : Eff → Option Ev
  | .postDown _ (.ps _ mid _ _ _) => some (.statusEv mid)
  | .postDown _ (.pm md) => some (.messageEv md.messageId)
  | _ => none

/-- Spec-side view of one message element: text messages with a text object
and image/video/document messages yield one Message event; other types are
dropped (amended claim). -/
def specMsgEv (m : Message) : Option Ev :=
  if (m.type = "text" ∧ m.text.isSome) ∨ m.type = "image" ∨ m.type = "video"
      ∨ m.type = "document" then
    some (.messageEv m.id)
  else none

/-- Spec-side normalizer, following the (amended) claim's words: for every
messages-field Change carrying a truthy tenant id, one StatusUpdate event
per element of `statuses[]` followed by one Message event per eligible
element of `messages[]`, in array order; Changes are taken in source order
within each Entry and Entries in source order. -/
def specChangeEvents (c : Change) : List Ev :=
  if c.field = "messages" ∧ truthyOptStr (pidOf c.value) = true then
    (match c.value.statuses with
     | some sts => sts.map fun s => Ev.statusEv s.id
     | none => []) ++
    (match c.value.messages with
     | some msgs => msgs.filterMap specMsgEv
     | none => [])
  else []

def specEvents (body : Envelope) : List Ev :=
  (body.entry.getD []).flatMap fun e => (e.changes.getD []).flatMap specChangeEvents

end R1

theorem filterMap_flatMap {α β γ : Type} (l : List α) (f : α → List β) (g : β → Option γ) :
    (l.flatMap f).filterMap g = l.flatMap fun a => (f a).filterMap g := by
  induction l with
  | nil => rfl
  | cons a t ih => simp [List.flatMap_cons, List.filterMap_append, ih]

theorem truthyStr_append_left (a b : String) (h : truthyStr a = true) :
    truthyStr (a ++ b) = true := by
  unfold truthyStr at *
  rw [String.data_append]
  cases hd : a.data with
  | nil => rw [hd] at h; simp at h
  | cons x xs => simp [hd]

theorem eventOf_auto (cfg : R1.Config) (pid toN : String) (om : Option String)
    (ct : String) :
    (R1.sendAutoResponse cfg pid toN om ct).filterMap R1.eventOf = [] := by
  unfold R1.sendAutoResponse
  split
  · simp [R1.eventOf]
  · dsimp only
    split <;> simp [R1.eventOf]

theorem eventOf_status (cfg : R1.Config) (base : String) (hb : cfg.bolt = some base)
    (ht : truthyStr base = true) (hd : R1.denylisted base = false)
    (pid : String) (s : R1.StatusUpdate) :
    (R1.handleStatusUpdate cfg pid s).filterMap R1.eventOf = [.statusEv s.id] := by
  unfold R1.handleStatusUpdate
  rw [hb]
  simp only [truthyOptStr, Option.getD_some]
  rw [ht, hd]
  by_cases hn : cfg.net base <;> simp [hn, ht, R1.eventOf]

theorem eventOf_forward (cfg : R1.Config) (base : String) (hb : cfg.bolt = some base)
    (ht : truthyStr base = true) (hd : R1.denylisted base = false)
    (ct : String) (md : R1.MessageData) :
    (R1.forwardMessage cfg ct md).filterMap R1.eventOf = [.messageEv md.messageId] := by
  unfold R1.forwardMessage
  rw [hb]
  simp only [truthyOptStr, Option.getD_some]
  rw [ht, hd]
  simp only [Bool.not_true, Bool.false_eq_true, if_false]
  rw [show truthyStr (R1.newURL ("/api/chatbot/" ++ ct) base) = true from
    truthyStr_append_left base _ ht]
  by_cases hn : cfg.net (R1.newURL ("/api/chatbot/" ++ ct) base)
  · simp [hn, R1.eventOf]
  · simp [hn, R1.eventOf, List.filterMap_append, eventOf_auto]

theorem eventOf_msg (cfg : R1.Config) (base : String) (hb : cfg.bolt = some base)
    (ht : truthyStr base = true) (hd : R1.denylisted base = false)
    (pid : String) (m : R1.Message) :
    (R1.processMessage cfg pid m).filterMap R1.eventOf = (R1.specMsgEv m).toList := by
  unfold R1.processMessage R1.specMsgEv
  by_cases h1 : m.type = "text" ∧ m.text.isSome
  · rw [if_pos h1, if_pos (Or.inl h1), eventOf_forward cfg base hb ht hd]
    rfl
  · rw [if_neg h1]
    by_cases h2 : m.type = "image" ∨ m.type = "video" ∨ m.type = "document"
    · rw [if_pos h2, if_pos (Or.inr h2), eventOf_forward cfg base hb ht hd]
      rfl
    · rw [if_neg h2, if_neg (by tauto)]
      rfl

theorem eventOf_statusList (cfg : R1.Config) (base : String) (hb : cfg.bolt = some base)
    (ht : truthyStr base = true) (hd : R1.denylisted base = false) (pid : String)
    (sts : List R1.StatusUpdate) :
    (sts.flatMap (R1.handleStatusUpdate cfg pid)).filterMap R1.eventOf
      = sts.map fun s => R1.Ev.statusEv s.id := by
  induction sts with
  | nil => rfl
  | cons s rest ih =>
    simp only [List.flatMap_cons, List.filterMap_append, List.map_cons]
    rw [eventOf_status cfg base hb ht hd, ih]
    rfl

theorem eventOf_msgList (cfg : R1.Config) (base : String) (hb : cfg.bolt = some base)
    (ht : truthyStr base = true) (hd : R1.denylisted base = false) (pid : String)
    (msgs : List R1.Message) :
    (msgs.flatMap (R1.processMessage cfg pid)).filterMap R1.eventOf
      = msgs.filterMap R1.specMsgEv := by
  induction msgs with
  | nil => rfl
  | cons m rest ih =>
    simp only [List.flatMap_cons, List.filterMap_append, List.filterMap_cons]
    rw [eventOf_msg cfg base hb ht hd, ih]
    cases R1.specMsgEv m <;> rfl

theorem eventOf_change (cfg : R1.Config) (base : String) (hb : cfg.bolt = some base)
    (ht : truthyStr base = true) (hd : R1.denylisted base = false) (c : R1.Change) :
    (R1.processChange cfg c).filterMap R1.eventOf = R1.specChangeEvents c := by
  unfold R1.processChange R1.specChangeEvents
  by_cases hf : c.field = "messages"
  · rw [if_pos hf]
    by_cases hp : truthyOptStr (R1.pidOf c.value) = true
    · rw [if_neg (by simp [hp]), if_pos ⟨hf, hp⟩, List.filterMap_append]
      congr 1
      · cases c.value.statuses with
        | none => rfl
        | some sts => exact eventOf_statusList cfg base hb ht hd _ sts
      · cases c.value.messages with
        | none => rfl
        | some msgs => exact eventOf_msgList cfg base hb ht hd _ msgs
    · rw [if_pos (by simp [hp]), if_neg (by tauto)]
      rfl
  · rw [if_neg hf, if_neg (by tauto)]
    rfl

theorem eventOf_changes (cfg : R1.Config) (base : String) (hb : cfg.bolt = some base)
    (ht : truthyStr base = true) (hd : R1.denylisted base = false)
    (cs : List R1.Change) :
    (cs.flatMap (R1.processChange cfg)).filterMap R1.eventOf
      = cs.flatMap R1.specChangeEvents := by
  rw [filterMap_flatMap]
  induction cs with
  | nil => rfl
  | cons c rest ih =>
    simp only [List.flatMap_cons]
    rw [eventOf_change cfg base hb ht hd, ih]

/-- C8 amended: in the part_000 router — the only variant that walks the
whole payload — with a usable (set, nonempty, non-denylisted) downstream
endpoint, the attempted downstream forwards of a business-account request
are exactly the spec-side normalized events: one StatusUpdate per element of
each `statuses[]` array and one Message per eligible element of each
`messages[]` array (text messages with a text object and image/video/
document messages; other types are dropped), in array order within each
Change, with Changes and Entries in source order, for every Change carrying
a tenant id.  This holds for every network-outcome oracle: a failed forward
does not change which events are attempted.  (part_001 examines only
`entry[0].changes[0]` — see the counterexample — and webhook.ts reads
statuses only from `message_status_updates` Changes.) -/
theorem c8_amended_normalizer_order :
    ∀ (cfg : R1.Config) (base : String) (body : R1.Envelope),
      cfg.bolt = some base →
      truthyStr base = true →
      R1.denylisted base = false →
      body.object = "whatsapp_business_account" →
      (R1.handleWebhookPost cfg body).2.filterMap R1.eventOf = R1.specEvents body := by
  intro cfg base body hb ht hd hobj
  unfold R1.handleWebhookPost R1.specEvents
  rw [if_pos hobj]
  simp only
  rw [filterMap_flatMap]
  simp only [eventOf_changes cfg base hb ht hd]

/-- Witness for C8 at a concrete two-entry request mixing statuses, text,
media and an (ignored) audio message: the attempted forwards are one status
event and then one message event per eligible element, in source order. -/
theorem c8_witness :
    ((R1.handleWebhookPost ⟨none, some "https://bolt.example", some "tok", fun _ => true⟩
        ⟨"whatsapp_business_account", some
          [⟨some [⟨"messages",
              ⟨some ⟨some "111"⟩,
               some [⟨"s1", "delivered", "90", "u1"⟩],
               some [⟨"m1", "u1", "100", "text", some "a quiz", none, none⟩,
                     ⟨"m2", "u1", "101", "audio", none, none, none⟩]⟩⟩]⟩,
           ⟨some [⟨"messages",
              ⟨some ⟨some "222"⟩, none,
               some [⟨"m3", "u2", "102", "image", none, some "media9", some "image/png"⟩]⟩⟩]⟩]⟩).2.filterMap
        R1.eventOf)
      = [.statusEv "s1", .messageEv "m1", .messageEv "m3"] := by
  have h := c8_amended_normalizer_order
    ⟨none, some "https://bolt.example", some "tok", fun _ => true⟩ "https://bolt.example"
    ⟨"whatsapp_business_account", some
      [⟨some [⟨"messages",
          ⟨some ⟨some "111"⟩,
           some [⟨"s1", "delivered", "90", "u1"⟩],
           some [⟨"m1", "u1", "100", "text", some "a quiz", none, none⟩,
                 ⟨"m2", "u1", "101", "audio", none, none, none⟩]⟩⟩]⟩,
       ⟨some [⟨"messages",
          ⟨some ⟨some "222"⟩, none,
           some [⟨"m3", "u2", "102", "image", none, some "media9", some "image/png"⟩]⟩⟩]⟩]⟩
    rfl (by decide) (by decide) rfl
  rw [h]
  decide
